import Mathlib

/-!
Shallow embedding of the Linux 2.6.32 neighbour cache (net/core/neighbour.c,
net/ipv4/arp.c, include/net/neighbour.h).

Times (jiffies) are modelled as `Int` with plain comparison standing in for
the wrap-aware `time_before`/`time_after` macros.  Frames (`sk_buff`) are
opaque `Nat` identifiers; a frame queue is a FIFO `List Nat` with head at
the front.  Per-CPU statistics are returned as per-call deltas.
-/

/-- NUD states from include/net/neighbour.h (modelled as an enumeration:
each entry is in exactly one state at a time). -/
inductive NudState
  | NUD_NONE
  | NUD_INCOMPLETE
  | NUD_REACHABLE
  | NUD_STALE
  | NUD_DELAY
  | NUD_PROBE
  | NUD_FAILED
  | NUD_NOARP
  | NUD_PERMANENT
  deriving DecidableEq, Repr

open NudState

/-- NUD_IN_TIMER = NUD_INCOMPLETE|NUD_REACHABLE|NUD_DELAY|NUD_PROBE -/
def NudState.isInTimer : NudState → Bool
  | NUD_INCOMPLETE | NUD_REACHABLE | NUD_DELAY | NUD_PROBE => true
  | _ => false

/-- NUD_VALID = NUD_PERMANENT|NUD_NOARP|NUD_REACHABLE|NUD_PROBE|NUD_STALE|NUD_DELAY -/
def NudState.isValid : NudState → Bool
  | NUD_PERMANENT | NUD_NOARP | NUD_REACHABLE | NUD_PROBE | NUD_STALE | NUD_DELAY => true
  | _ => false

/-- NUD_CONNECTED = NUD_PERMANENT|NUD_NOARP|NUD_REACHABLE -/
def NudState.isConnected : NudState → Bool
  | NUD_PERMANENT | NUD_NOARP | NUD_REACHABLE => true
  | _ => false

/-- struct neigh_parms: per-(table, interface) tunables. -/
structure NeighParms where
  ucast_probes : Nat
  mcast_probes : Nat
  app_probes : Nat
  retrans_time : Int
  base_reachable_time : Int
  reachable_time : Int
  delay_probe_time : Int
  gc_staletime : Int
  locktime : Int
  proxy_delay : Int
  queue_len : Nat
  proxy_qlen : Nat
  deriving DecidableEq, Repr

/-- struct neighbour: the fields the verified operations touch.
`ha` is the cached link-layer address (content, as an opaque number),
`arp_queue` the per-entry bounded FIFO of pending frames. -/
structure Neighbour where
  nud_state : NudState
  ha : Nat
  confirmed : Int
  updated : Int
  used : Int
  probes : Nat
  arp_queue : List Nat
  refcnt : Nat
  dead : Bool
  ntf_router : Bool
  deriving DecidableEq, Repr

/-- neigh_max_probes (neighbour.c): in NUD_PROBE only ucast_probes apply,
otherwise ucast+app+mcast. -/
def neigh_max_probes (p : NeighParms) (n : Neighbour) : Nat :=
  if n.nud_state = NUD_PROBE then p.ucast_probes
  else p.ucast_probes + p.app_probes + p.mcast_probes

/-- Result of `__neigh_event_send`: return code, updated entry, the argument
of `neigh_add_timer` when a timer was armed, whether the frame was freed
immediately (FAILED path), the `unres_discards` delta and the evicted frame. -/
structure SendResult where
  rc : Nat
  neigh : Neighbour
  timer : Option Int
  freed : Bool
  unres_discards : Nat
  dropped : Option Nat
  deriving DecidableEq, Repr

/-- Final enqueue step of `__neigh_event_send` (the
`if (neigh->nud_state == NUD_INCOMPLETE)` tail): append the frame to the
entry's queue, evicting the head when the queue already holds at least
`queue_len` frames. -/
def neigh_send_enqueue (p : NeighParms) (n : Neighbour) (timer : Option Int)
    (skb : Option Nat) : SendResult :=
  if n.nud_state = NUD_INCOMPLETE then
    match skb with
    | Option.some s =>
      if p.queue_len ≤ n.arp_queue.length then
        ⟨1, { n with arp_queue := n.arp_queue.tail ++ [s] }, timer, false, 1,
          n.arp_queue.head?⟩
      else
        ⟨1, { n with arp_queue := n.arp_queue ++ [s] }, timer, false, 0, Option.none⟩
    | Option.none => ⟨1, n, timer, false, 0, Option.none⟩
  else ⟨0, n, timer, false, 0, Option.none⟩

/-- __neigh_event_send (neighbour.c): the USE event on an entry that is not
CONNECTED/DELAY/PROBE.  NONE/FAILED entries start resolution when
mcast_probes + app_probes > 0 (probes counter pre-charged with
ucast_probes, timer at now+1) and fail immediately otherwise; STALE moves
to DELAY with a timer at now + delay_probe_time; INCOMPLETE entries queue
the frame. -/
def __neigh_event_send (now : Int) (p : NeighParms) (n : Neighbour)
    (skb : Option Nat) : SendResult :=
  if n.nud_state.isConnected ∨ n.nud_state = NUD_DELAY ∨ n.nud_state = NUD_PROBE then
    ⟨0, n, Option.none, false, 0, Option.none⟩
  else if ¬ (n.nud_state = NUD_STALE ∨ n.nud_state = NUD_INCOMPLETE) then
    if p.mcast_probes + p.app_probes ≠ 0 then
      neigh_send_enqueue p
        { n with probes := p.ucast_probes, nud_state := NUD_INCOMPLETE, updated := now }
        (Option.some (now + 1)) skb
    else
      ⟨1, { n with nud_state := NUD_FAILED, updated := now }, Option.none, true, 0,
        Option.none⟩
  else if n.nud_state = NUD_STALE then
    neigh_send_enqueue p
      { n with nud_state := NUD_DELAY, updated := now }
      (Option.some (now + p.delay_probe_time)) skb
  else
    neigh_send_enqueue p n Option.none skb

/-- neigh_event_send (neighbour.h): records the use time, then defers to
`__neigh_event_send` unless the state is CONNECTED/DELAY/PROBE. -/
def neigh_event_send (now : Int) (p : NeighParms) (n : Neighbour)
    (skb : Option Nat) : SendResult :=
  let n := { n with used := now }
  if ¬ (n.nud_state.isConnected ∨ n.nud_state = NUD_DELAY ∨ n.nud_state = NUD_PROBE) then
    __neigh_event_send now p n skb
  else ⟨0, n, Option.none, false, 0, Option.none⟩

/-- Result of one firing of the per-entry timer: updated entry, programmed
next expiry (when rearmed), whether a solicitation was emitted, the frames
handed to `error_report` by `neigh_invalidate`, and the `res_failed` delta. -/
structure TimerResult where
  neigh : Neighbour
  next : Option Int
  solicited : Bool
  err_frames : List Nat
  res_failed : Nat
  deriving DecidableEq, Repr

/-- State-dependent transition of neigh_timer_handler (the REACHABLE /
DELAY / INCOMPLETE|PROBE branches), returning the updated entry and the
tentative next expiry. -/
def neigh_timer_transition (hz : Int) (now : Int) (p : NeighParms)
    (n : Neighbour) : Neighbour × Int :=
  if n.nud_state = NUD_REACHABLE then
    if now ≤ n.confirmed + p.reachable_time then
      (n, n.confirmed + p.reachable_time)
    else if now ≤ n.used + p.delay_probe_time then
      ({ n with nud_state := NUD_DELAY, updated := now }, now + p.delay_probe_time)
    else
      ({ n with nud_state := NUD_STALE, updated := now }, now + hz)
  else if n.nud_state = NUD_DELAY then
    if now ≤ n.confirmed + p.delay_probe_time then
      ({ n with nud_state := NUD_REACHABLE, updated := now },
        n.confirmed + p.reachable_time)
    else
      ({ n with nud_state := NUD_PROBE, updated := now, probes := 0 },
        now + p.retrans_time)
  else
    (n, now + p.retrans_time)

/-- The probe-exhaustion check of neigh_timer_handler: when the entry is
still INCOMPLETE or PROBE with the probe budget spent, neigh_invalidate
moves it to FAILED, reports every queued frame unreachable and bumps
res_failed. -/
def neigh_timer_probe_fail (now : Int) (p : NeighParms) (n1 : Neighbour) :
    Neighbour × List Nat × Nat :=
  if (n1.nud_state = NUD_INCOMPLETE ∨ n1.nud_state = NUD_PROBE) ∧
      neigh_max_probes p n1 ≤ n1.probes then
    ({ n1 with nud_state := NUD_FAILED, updated := now, arp_queue := [] },
      n1.arp_queue, 1)
  else (n1, ([] : List Nat), 0)

/-- neigh_timer_handler (neighbour.c): the per-entry timer callback.
`hz` is the kernel HZ constant (ticks per second). -/
def neigh_timer_handler (hz : Int) (now : Int) (p : NeighParms)
    (n : Neighbour) : TimerResult :=
  if ¬ n.nud_state.isInTimer then ⟨n, Option.none, false, [], 0⟩
  else
    match neigh_timer_transition hz now p n with
    | (n1, next) =>
      match neigh_timer_probe_fail now p n1 with
      | (n2, errs, rf) =>
        let next2 :=
          if n2.nud_state.isInTimer then
            Option.some (if next < now + hz / 2 then now + hz / 2 else next)
          else Option.none
        if n2.nud_state = NUD_INCOMPLETE ∨ n2.nud_state = NUD_PROBE then
          ⟨{ n2 with probes := n2.probes + 1 }, next2, true, errs, rf⟩
        else
          ⟨n2, next2, false, errs, rf⟩

/-- Drive the per-entry timer through successive expiries while it stays
armed (fuel-bounded): returns the total number of solicitations emitted,
the frames reported unreachable, the `res_failed` total and the final
entry. -/
def runTimer (hz : Int) (p : NeighParms) :
    Nat → Int → Neighbour → Nat × List Nat × Nat × Neighbour
  | 0, _, n => (0, [], 0, n)
  | Nat.succ fuel, now, n =>
    let r := neigh_timer_handler hz now p n
    match r.next with
    | Option.none => ((if r.solicited then 1 else 0), r.err_frames, r.res_failed, r.neigh)
    | Option.some t =>
      let rest := runTimer hz p fuel t r.neigh
      ((if r.solicited then 1 else 0) + rest.1, r.err_frames ++ rest.2.1,
        r.res_failed + rest.2.2.1, rest.2.2.2)

/-- HZ for the concrete ARP scenarios (1000 ticks per second). -/
def HZ : Int := 1000

/-- Default parameters of `arp_tbl` (net/ipv4/arp.c): ucast_probes = 3,
mcast_probes = 3, app_probes = 0 (unset), retrans_time = 1 s, etc. -/
def arp_tbl_parms : NeighParms :=
  { ucast_probes := 3
    mcast_probes := 3
    app_probes := 0
    retrans_time := 1 * HZ
    base_reachable_time := 30 * HZ
    reachable_time := 30 * HZ
    delay_probe_time := 5 * HZ
    gc_staletime := 60 * HZ
    locktime := 1 * HZ
    proxy_delay := 8 * HZ / 10
    queue_len := 3
    proxy_qlen := 64 }

/-- A freshly created entry as produced by neigh_alloc/neigh_create at time
`now` (state NUD_NONE, empty queue, confirmed backdated by
2·base_reachable_time by neigh_create). -/
def neigh_create_entry (now : Int) (p : NeighParms) : Neighbour :=
  { nud_state := NUD_NONE
    ha := 0
    confirmed := now - 2 * p.base_reachable_time
    updated := now
    used := now
    probes := 0
    arp_queue := []
    refcnt := 1
    dead := false
    ntf_router := false }

/-- Flags of neigh_update (NEIGH_UPDATE_F_*). -/
structure UpdateFlags where
  admin : Bool
  override : Bool
  weak_override : Bool
  override_isrouter : Bool
  isrouter : Bool
  deriving DecidableEq, Repr

def noFlags : UpdateFlags := ⟨false, false, false, false, false⟩

def overrideFlags : UpdateFlags := ⟨false, true, false, false, false⟩

/-- Error numbers used by neigh_update. -/
def EPERM : Int := 1

def EINVAL : Int := 22

/-- Result of `neigh_update`: return value, updated entry, frames drained
through `output` when an invalid entry became valid, frames handed to
`error_report` by `neigh_invalidate`, and the `res_failed` delta. -/
structure UpdateResult where
  err : Int
  neigh : Neighbour
  drained : List Nat
  err_frames : List Nat
  res_failed : Nat
  timer : Option Int
  deriving DecidableEq, Repr

/-- The `out:` label of neigh_update: apply the NTF_ROUTER change when
`update_isrouter` survived. -/
def neigh_update_out (err : Int) (n : Neighbour) (update_isrouter : Bool)
    (f : UpdateFlags) (drained : List Nat) (timer : Option Int) : UpdateResult :=
  if update_isrouter then
    ⟨err, { n with ntf_router := f.isrouter }, drained, [], 0, timer⟩
  else ⟨err, n, drained, [], 0, timer⟩

/-- Main path of neigh_update once the new state is VALID and the lladdr
argument has been resolved to a value `l` plus a flag `aliased` recording
whether the C code's `lladdr` pointer aliases `neigh->ha`. -/
def neigh_update_main (now : Int) (p : NeighParms) (n : Neighbour)
    (l : Nat) (aliased : Bool) (new0 : NudState) (f : UpdateFlags) : UpdateResult :=
  let old := n.nud_state
  let n := { n with
    confirmed := if new0.isConnected then now else n.confirmed
    updated := now }
  -- `old & NUD_VALID` block: refusal, weak-override fallback, state retention
  let dec :=
    if old.isValid then
      if ¬ aliased ∧ ¬ f.override then
        if f.weak_override ∧ old.isConnected then
          Option.some (n.ha, true, NUD_STALE, false)
        else Option.none
      else
        if aliased ∧ new0 = NUD_STALE ∧ (f.weak_override ∨ old.isConnected) then
          Option.some (l, aliased, old, f.override_isrouter)
        else Option.some (l, aliased, new0, f.override_isrouter)
    else Option.some (l, aliased, new0, f.override_isrouter)
  match dec with
  | Option.none => neigh_update_out 0 n false f [] Option.none
  | Option.some (l, aliased, new, update_isrouter) =>
    match
      (if new ≠ old then
        ({ n with nud_state := new },
          if new.isInTimer then
            Option.some (now + (if new = NUD_REACHABLE then p.reachable_time else 0))
          else Option.none)
      else (n, Option.none)) with
    | (n2, timer2) =>
      let n3 :=
        if ¬ aliased then
          { n2 with
            ha := l,
            confirmed := if ¬ new.isConnected then now - 2 * p.base_reachable_time
                         else n2.confirmed }
        else n2
      if new = old then
        neigh_update_out 0 n3 update_isrouter f [] timer2
      else
        -- neigh_connect / neigh_suspect (output-pointer only), then queue drain
        if ¬ old.isValid then
          if n3.nud_state.isValid then
            neigh_update_out 0 { n3 with arp_queue := [] } update_isrouter f
              n3.arp_queue timer2
          else
            neigh_update_out 0 { n3 with arp_queue := [] } update_isrouter f []
              timer2
        else
          neigh_update_out 0 n3 update_isrouter f [] timer2

/-- neigh_update (neighbour.c): generic update of state and link-layer
address.  `addr_len` is `dev->addr_len`. -/
def neigh_update (now : Int) (addr_len : Nat) (p : NeighParms) (n : Neighbour)
    (lladdr : Option Nat) (new0 : NudState) (f : UpdateFlags) : UpdateResult :=
  let old := n.nud_state
  if ¬ f.admin ∧ (old = NUD_NOARP ∨ old = NUD_PERMANENT) then
    ⟨-EPERM, n, [], [], 0, Option.none⟩
  else if ¬ new0.isValid then
    let n1 := { n with nud_state := new0 }
    if (old = NUD_INCOMPLETE ∨ old = NUD_PROBE) ∧ new0 = NUD_FAILED then
      ⟨0, { n1 with updated := now, arp_queue := [] }, [], n1.arp_queue, 1,
        Option.none⟩
    else ⟨0, n1, [], [], 0, Option.none⟩
  else
    if addr_len = 0 then
      neigh_update_main now p n n.ha true new0 f
    else
      match lladdr with
      | Option.some l0 =>
        if old.isValid ∧ l0 = n.ha then
          neigh_update_main now p n n.ha true new0 f
        else
          neigh_update_main now p n l0 false new0 f
      | Option.none =>
        if ¬ old.isValid then ⟨-EINVAL, n, [], [], 0, Option.none⟩
        else neigh_update_main now p n n.ha true new0 f

/-- neigh_confirm (neighbour.h): record reachability evidence. -/
def neigh_confirm (now : Int) (n : Neighbour) : Neighbour :=
  { n with confirmed := now }

/-- Tail of arp_process (arp.c): on an inbound ARP packet resolving a known
neighbour, update it to NUD_REACHABLE (or NUD_STALE for a non-reply or a
broadcast-destination packet), with the OVERRIDE flag granted only when
more than `locktime` has elapsed since the entry's last update. -/
def arp_process_update (now : Int) (addr_len : Nat) (p : NeighParms)
    (n : Neighbour) (sha : Nat) (isReply isHost : Bool) : UpdateResult :=
  let state := if ¬ isReply ∨ ¬ isHost then NUD_STALE else NUD_REACHABLE
  let override := n.updated + p.locktime < now
  neigh_update now addr_len p n (Option.some sha) state
    { noFlags with override := override }

/-- struct neigh_table: the fields touched by forced GC and allocation. -/
structure NeighTable where
  buckets : List (List Neighbour)
  entries : Nat
  last_flush : Int
  gc_thresh1 : Nat
  gc_thresh2 : Nat
  gc_thresh3 : Nat
  deriving DecidableEq, Repr

/-- The forced-GC discard condition of neigh_forced_gc: nobody refers to the
entry (refcount 1) and it is not permanent. -/
def neigh_gc_removable (e : Neighbour) : Bool :=
  e.refcnt == 1 && !(e.nud_state == NUD_PERMANENT)

/-- The bucket scan loop of neigh_forced_gc: walk the chain, unlinking every
removable entry; returns the surviving chain and the number removed. -/
def neigh_forced_gc_bucket : List Neighbour → List Neighbour × Nat
  | [] => ([], 0)
  | e :: rest =>
    let r := neigh_forced_gc_bucket rest
    if neigh_gc_removable e then (r.1, r.2 + 1)
    else (e :: r.1, r.2)

/-- neigh_forced_gc (neighbour.c): synchronous shrink.  Scans every bucket,
removes all removable entries (each removal releases the last reference, so
the table's entry count drops), records the sweep timestamp, and reports
whether anything was freed. -/
def neigh_forced_gc (now : Int) (tbl : NeighTable) : NeighTable × Bool :=
  let scanned := tbl.buckets.map neigh_forced_gc_bucket
  let removed := (scanned.map Prod.snd).sum
  ({ tbl with
      buckets := scanned.map Prod.fst,
      entries := tbl.entries - removed,
      last_flush := now },
    removed ≠ 0)

/-- neigh_alloc (neighbour.c): the admission decision at entry creation.
`tbl.entries` is read before the increment; when the count is at gc_thresh3,
or at gc_thresh2 with the last forced sweep more than 5 s old, the forced
GC runs first, and the creation is refused when it freed nothing and the
count is still at gc_thresh3. -/
def neigh_alloc (hz now : Int) (tbl : NeighTable) :
    Option Neighbour × NeighTable :=
  let entries := tbl.entries
  let tbl1 := { tbl with entries := tbl.entries + 1 }
  if tbl.gc_thresh3 ≤ entries ∨
      (tbl.gc_thresh2 ≤ entries ∧ tbl.last_flush + 5 * hz < now) then
    let g := neigh_forced_gc now tbl1
    if ¬ g.2 ∧ tbl.gc_thresh3 ≤ entries then
      (Option.none, { g.1 with entries := g.1.entries - 1 })
    else
      (Option.some { nud_state := NUD_NONE, ha := 0, confirmed := 0,
                     updated := now, used := now, probes := 0, arp_queue := [],
                     refcnt := 1, dead := true, ntf_router := false }, g.1)
  else
    (Option.some { nud_state := NUD_NONE, ha := 0, confirmed := 0,
                   updated := now, used := now, probes := 0, arp_queue := [],
                   refcnt := 1, dead := true, ntf_router := false }, tbl1)

/-- The proxy-queue state touched by pneigh_enqueue. -/
structure ProxyState where
  proxy_queue : List Nat
  deriving DecidableEq, Repr

/-- pneigh_enqueue (neighbour.c): defer a proxied request.  When the queue
already holds more than `proxy_qlen` frames the NEW frame is freed (second
component `true`); otherwise the frame is appended at the tail. -/
def pneigh_enqueue (p : NeighParms) (st : ProxyState) (skb : Nat) :
    ProxyState × Bool :=
  if p.proxy_qlen < st.proxy_queue.length then (st, true)
  else ({ st with proxy_queue := st.proxy_queue ++ [skb] }, false)

/-! Concrete scenario inputs used by counterexamples and witnesses. -/

/-- Entry created at time 0 with the default ARP parameters. -/
def arp_cold_entry : Neighbour := neigh_create_entry 0 arp_tbl_parms

/-- Cold resolve with no reply: USE at time 0 queues frame `f` and enters
INCOMPLETE; the timer then fires from t = 1 onwards until the entry leaves
the timed states. -/
def arp_resolution_run (f : Nat) : Nat × List Nat × Nat × Neighbour :=
  runTimer 1000 arp_tbl_parms 10 1
    ((__neigh_event_send 0 arp_tbl_parms arp_cold_entry (Option.some f)).neigh)

/-- REACHABLE entry confirmed at time 0. -/
def reach_entry : Neighbour :=
  { arp_cold_entry with nud_state := NUD_REACHABLE, confirmed := 0, used := 0 }

/-- Parameters with a short reachable_time (100 ticks < HZ/2). -/
def short_reach_parms : NeighParms := { arp_tbl_parms with reachable_time := 100 }

/-- PERMANENT entry bound to link-layer address 1, last updated at time 0. -/
def perm_entry : Neighbour :=
  { arp_cold_entry with nud_state := NUD_PERMANENT, ha := 1, updated := 0 }

/-- Parameters with queue_len = 0. -/
def zero_queue_parms : NeighParms := { arp_tbl_parms with queue_len := 0 }

/-- INCOMPLETE entry with an empty frame queue. -/
def incomplete_entry : Neighbour := { arp_cold_entry with nud_state := NUD_INCOMPLETE }

/-- Parameters with proxy_qlen = 1. -/
def small_proxy_parms : NeighParms := { arp_tbl_parms with proxy_qlen := 1 }

/-- Entry in the initial NUD_NONE state. -/
def none_entry : Neighbour := { arp_cold_entry with nud_state := NUD_NONE }

/-- Table at gc_thresh3 = 4 with 4 live entries, all pinned (refcount 2). -/
def pinned_table : NeighTable :=
  { buckets := [[{ arp_cold_entry with refcnt := 2 },
                 { arp_cold_entry with refcnt := 2 }],
                [{ arp_cold_entry with refcnt := 2 },
                 { arp_cold_entry with refcnt := 2 }]]
    entries := 4
    last_flush := 0
    gc_thresh1 := 2
    gc_thresh2 := 3
    gc_thresh3 := 4 }

/-! Theorems. -/

/-- C6: an update without the ADMIN flag on a PERMANENT or NOARP entry is
refused with -EPERM and leaves the entry (state, link-layer address and
all timestamps) unchanged. -/
theorem neigh_update_refuses_noarp_permanent (now : Int) (addr_len : Nat)
    (p : NeighParms) (n : Neighbour) (lladdr : Option Nat) (new0 : NudState)
    (f : UpdateFlags) (hadmin : f.admin = false)
    (hstate : n.nud_state = NUD_PERMANENT ∨ n.nud_state = NUD_NOARP) :
    neigh_update now addr_len p n lladdr new0 f =
      ⟨-EPERM, n, [], [], 0, Option.none⟩ := by
  rcases hstate with h | h <;> simp [neigh_update, hadmin, h]

theorem neigh_update_refuses_noarp_permanent_witness :
    neigh_update 100 6 arp_tbl_parms perm_entry (Option.some 2) NUD_REACHABLE
        overrideFlags = ⟨-EPERM, perm_entry, [], [], 0, Option.none⟩ :=
  neigh_update_refuses_noarp_permanent 100 6 arp_tbl_parms perm_entry
    (Option.some 2) NUD_REACHABLE overrideFlags (by decide)
    (Or.inl (by decide))

/-- C7: a USE event on a NUD_NONE entry when mcast_probes + app_probes = 0
moves it straight to NUD_FAILED, frees the frame instead of queueing it,
and returns 1 (failure). -/
theorem event_send_none_no_probes (now : Int) (p : NeighParms) (n : Neighbour)
    (s : Nat) (hstate : n.nud_state = NUD_NONE)
    (hprobes : p.mcast_probes + p.app_probes = 0) :
    __neigh_event_send now p n (Option.some s) =
      ⟨1, { n with nud_state := NUD_FAILED, updated := now }, Option.none, true,
        0, Option.none⟩ := by
  simp [__neigh_event_send, hstate, hprobes, NudState.isConnected]

theorem event_send_none_no_probes_witness :
    __neigh_event_send 0 { arp_tbl_parms with mcast_probes := 0 } none_entry
        (Option.some 9) =
      ⟨1, { none_entry with nud_state := NUD_FAILED, updated := 0 }, Option.none,
        true, 0, Option.none⟩ :=
  event_send_none_no_probes 0 { arp_tbl_parms with mcast_probes := 0 } none_entry
    9 (by decide) (by decide)

/-- C10: whenever the per-entry timer handler rearms the timer, the
programmed expiry is at least HZ/2 ticks after the current time. -/
theorem neigh_timer_rearm_min_spacing (hz now : Int) (p : NeighParms)
    (n : Neighbour) (t : Int)
    (h : (neigh_timer_handler hz now p n).next = Option.some t) :
    now + hz / 2 ≤ t := by
  unfold neigh_timer_handler at h
  rcases htr : neigh_timer_transition hz now p n with ⟨n1, next⟩
  rcases hpf : neigh_timer_probe_fail now p n1 with ⟨n2, errs, rf⟩
  simp only [htr, hpf] at h
  split_ifs at h <;> dsimp only at h <;> injection h with h <;> omega

theorem neigh_timer_rearm_min_spacing_witness :
    (100 : Int) + 1000 / 2 ≤ 600 :=
  neigh_timer_rearm_min_spacing 1000 100 short_reach_parms reach_entry 600
    (by decide)

/-- C1 counterexample: with the default ARP parameters (ucast_probes = 3,
mcast_probes = 3, app_probes = 0) a cold resolution that never gets a reply
emits 3 solicitations, not 6: `__neigh_event_send` pre-charges the probes
counter with ucast_probes, so only mcast_probes + app_probes timer fires
solicit before the budget ucast+mcast+app is reached. -/
theorem arp_exhaustion_three_not_six :
    (arp_resolution_run 1).1 = 3 ∧ (arp_resolution_run 1).1 ≠ 6 := by decide

/-- C1 (amended): with default ARP parameters an entry that enters
INCOMPLETE and never receives a reply emits exactly mcast_probes +
app_probes = 3 solicitations, one per timer fire, before the timer handler
moves it to FAILED; on that transition the queued frame is handed to
error_report and res_failed is incremented by 1. -/
theorem arp_exhaustion_spec (f : Nat) :
    (arp_resolution_run f).1 = 3 ∧ (arp_resolution_run f).2.1 = [f] ∧
    (arp_resolution_run f).2.2.1 = 1 ∧
    (arp_resolution_run f).2.2.2.nud_state = NUD_FAILED := by
  simp [arp_resolution_run, runTimer, neigh_timer_handler, neigh_timer_transition,
    neigh_timer_probe_fail, neigh_max_probes, __neigh_event_send,
    neigh_send_enqueue, arp_cold_entry, neigh_create_entry, arp_tbl_parms, HZ,
    NudState.isInTimer, NudState.isConnected]

/-- The HZ/2 clamp written as a maximum. -/
theorem ite_lt_max (a b : Int) : (if a < b then b else a) = max a b := by
  rcases le_or_lt b a with hba | hab
  · rw [if_neg (not_lt.mpr hba), max_eq_left hba]
  · rw [if_pos hab, max_eq_right (le_of_lt hab)]

/-- C2 counterexample: a REACHABLE entry whose timer fires at
now = confirmed + reachable_time stays REACHABLE, but the timer is rearmed
to now + HZ/2 = 600 by the HZ/2 clamp, not to confirmed + reachable_time =
100 as the claim states. -/
theorem reachable_rearm_clamped_cex :
    (100 : Int) ≤ reach_entry.confirmed + short_reach_parms.reachable_time ∧
    (neigh_timer_handler 1000 100 short_reach_parms reach_entry).neigh.nud_state
        = NUD_REACHABLE ∧
    (neigh_timer_handler 1000 100 short_reach_parms reach_entry).next =
      Option.some 600 ∧
    (neigh_timer_handler 1000 100 short_reach_parms reach_entry).next ≠
      Option.some (reach_entry.confirmed + short_reach_parms.reachable_time) := by
  decide

/-- C2 (amended): when the timer fires on a REACHABLE entry: within
confirmed + reachable_time it stays REACHABLE and the timer is rearmed to
max(confirmed + reachable_time, now + HZ/2); otherwise within
used + delay_probe_time it moves to DELAY with the timer rearmed to
max(now + delay_probe_time, now + HZ/2); otherwise it moves to STALE and
no per-entry timer is rearmed. -/
theorem neigh_timer_reachable_spec (hz now : Int) (p : NeighParms)
    (n : Neighbour) (h : n.nud_state = NUD_REACHABLE) :
    (now ≤ n.confirmed + p.reachable_time →
      (neigh_timer_handler hz now p n).neigh.nud_state = NUD_REACHABLE ∧
      (neigh_timer_handler hz now p n).next =
        Option.some (max (n.confirmed + p.reachable_time) (now + hz / 2))) ∧
    (¬ now ≤ n.confirmed + p.reachable_time →
      now ≤ n.used + p.delay_probe_time →
      (neigh_timer_handler hz now p n).neigh.nud_state = NUD_DELAY ∧
      (neigh_timer_handler hz now p n).next =
        Option.some (max (now + p.delay_probe_time) (now + hz / 2))) ∧
    (¬ now ≤ n.confirmed + p.reachable_time →
      ¬ now ≤ n.used + p.delay_probe_time →
      (neigh_timer_handler hz now p n).neigh.nud_state = NUD_STALE ∧
      (neigh_timer_handler hz now p n).next = Option.none) := by
  have hin : n.nud_state.isInTimer = true := by rw [h]; rfl
  refine ⟨fun h1 => ?_, fun h1 h2 => ?_, fun h1 h2 => ?_⟩ <;>
    simp [neigh_timer_handler, neigh_timer_transition, neigh_timer_probe_fail,
      h, hin, h1, ite_lt_max, NudState.isInTimer] <;>
    simp [h2, ite_lt_max, NudState.isInTimer]

theorem neigh_timer_reachable_spec_witness :
    (neigh_timer_handler 1000 50 arp_tbl_parms reach_entry).neigh.nud_state
        = NUD_REACHABLE ∧
    (neigh_timer_handler 1000 50 arp_tbl_parms reach_entry).next =
      Option.some
        (max (reach_entry.confirmed + arp_tbl_parms.reachable_time)
          (50 + 1000 / 2)) :=
  (neigh_timer_reachable_spec 1000 50 arp_tbl_parms reach_entry (by decide)).1
    (by decide)

/-- C3 counterexample: a PERMANENT entry bound to address 1 receives a
host-destined ARP reply announcing address 2 long after locktime expired;
the claim says the reply now overrides the binding, but the code refuses
any non-administrative update of a PERMANENT entry, so the binding stays 1. -/
theorem arp_locktime_perm_cex :
    perm_entry.updated + arp_tbl_parms.locktime < 5000 ∧
    (arp_process_update 5000 6 arp_tbl_parms perm_entry 2 true true).neigh.ha
        = 1 ∧
    (arp_process_update 5000 6 arp_tbl_parms perm_entry 2 true true).neigh.ha
        ≠ 2 := by
  decide

/-- C3 (amended): for an inbound host-destined ARP reply carrying a
link-layer address different from the cached one: within locktime of the
entry's last update the binding is never overridden; once more than
locktime has elapsed the reply overrides the binding, provided the entry's
state is neither PERMANENT nor NOARP (those states refuse every
non-administrative update). -/
theorem arp_locktime_antiflap (now : Int) (addr_len : Nat) (p : NeighParms)
    (n : Neighbour) (sha : Nat) (hvalid : n.nud_state.isValid = true)
    (hdiff : sha ≠ n.ha) (haddr : addr_len ≠ 0) :
    (¬ n.updated + p.locktime < now →
      (arp_process_update now addr_len p n sha true true).neigh.ha = n.ha) ∧
    (n.updated + p.locktime < now → n.nud_state ≠ NUD_PERMANENT →
      n.nud_state ≠ NUD_NOARP →
      (arp_process_update now addr_len p n sha true true).neigh.ha = sha) := by
  refine ⟨fun h1 => ?_, fun h1 h2 h3 => ?_⟩ <;>
    cases hst : n.nud_state <;>
      simp_all [arp_process_update, neigh_update, neigh_update_main,
        neigh_update_out, NudState.isValid, NudState.isConnected,
        NudState.isInTimer, noFlags, hdiff, haddr]

theorem arp_locktime_antiflap_witness :
    ((arp_process_update 400 6 arp_tbl_parms
        { reach_entry with ha := 1, updated := 0 } 2 true true).neigh.ha = 1) ∧
    ((arp_process_update 5000 6 arp_tbl_parms
        { reach_entry with ha := 1, updated := 0 } 2 true true).neigh.ha = 2) :=
  ⟨(arp_locktime_antiflap 400 6 arp_tbl_parms
      { reach_entry with ha := 1, updated := 0 } 2 (by decide) (by decide)
      (by decide)).1 (by decide),
   (arp_locktime_antiflap 5000 6 arp_tbl_parms
      { reach_entry with ha := 1, updated := 0 } 2 (by decide) (by decide)
      (by decide)).2 (by decide) (by decide) (by decide)⟩

/-- C4 counterexample: with queue_len = 0 an enqueue on an INCOMPLETE entry
with an empty queue still appends the frame (the empty-queue dequeue frees
nothing), so the queue reaches length 1 > queue_len. -/
theorem arp_queue_cap_zero_cex :
    incomplete_entry.arp_queue.length ≤ zero_queue_parms.queue_len ∧
    ¬ ((__neigh_event_send 0 zero_queue_parms incomplete_entry
          (Option.some 7)).neigh.arp_queue.length ≤ zero_queue_parms.queue_len) := by
  decide

/-- C4 (amended): per-entry queue bound.  Starting within the bound
max(queue_len, 1), an enqueue on an INCOMPLETE entry keeps the queue within
max(queue_len, 1); and when the queue already holds at least queue_len
frames the head frame is dequeued and freed, unres_discards is incremented,
and the new frame is appended at the tail. -/
theorem arp_queue_bounded (now : Int) (p : NeighParms) (n : Neighbour)
    (s : Nat) (hstate : n.nud_state = NUD_INCOMPLETE)
    (hlen : n.arp_queue.length ≤ max p.queue_len 1) :
    ((__neigh_event_send now p n (Option.some s)).neigh.arp_queue.length ≤
        max p.queue_len 1) ∧
    (p.queue_len ≤ n.arp_queue.length →
      (__neigh_event_send now p n (Option.some s)).neigh.arp_queue =
          n.arp_queue.tail ++ [s] ∧
      (__neigh_event_send now p n (Option.some s)).unres_discards = 1 ∧
      (__neigh_event_send now p n (Option.some s)).dropped =
          n.arp_queue.head?) := by
  have hcon : __neigh_event_send now p n (Option.some s) =
      neigh_send_enqueue p n Option.none (Option.some s) := by
    simp [__neigh_event_send, hstate, NudState.isConnected]
  rw [hcon]
  by_cases hq : p.queue_len ≤ n.arp_queue.length
  · refine ⟨?_, fun _ => ⟨?_, ?_, ?_⟩⟩ <;>
      simp [neigh_send_enqueue, hstate, hq]
    omega
  · refine ⟨?_, fun hq2 => absurd hq2 hq⟩
    simp [neigh_send_enqueue, hstate, hq]
    omega

theorem arp_queue_bounded_witness :
    ((__neigh_event_send 0 arp_tbl_parms
        { incomplete_entry with arp_queue := [4, 5, 6] }
        (Option.some 7)).neigh.arp_queue.length ≤ max arp_tbl_parms.queue_len 1) ∧
    ((__neigh_event_send 0 arp_tbl_parms
        { incomplete_entry with arp_queue := [4, 5, 6] }
        (Option.some 7)).neigh.arp_queue = [5, 6, 7] ∧
      (__neigh_event_send 0 arp_tbl_parms
        { incomplete_entry with arp_queue := [4, 5, 6] }
        (Option.some 7)).unres_discards = 1 ∧
      (__neigh_event_send 0 arp_tbl_parms
        { incomplete_entry with arp_queue := [4, 5, 6] }
        (Option.some 7)).dropped = Option.some 4) := by
  have h := arp_queue_bounded 0 arp_tbl_parms
    { incomplete_entry with arp_queue := [4, 5, 6] } 7 (by decide) (by decide)
  exact ⟨h.1, h.2 (by decide)⟩

/-- The bucket scan keeps exactly the entries that are not removable. -/
theorem neigh_forced_gc_bucket_fst (b : List Neighbour) :
    (neigh_forced_gc_bucket b).1 =
      b.filter (fun e => ! neigh_gc_removable e) := by
  induction b with
  | nil => rfl
  | cons e rest ih =>
    cases hrem : neigh_gc_removable e <;>
      simp [neigh_forced_gc_bucket, List.filter_cons, hrem, ih]

/-- A bucket with no removable entry loses nothing in the scan. -/
theorem neigh_forced_gc_bucket_snd_eq_zero (b : List Neighbour)
    (h : ∀ e ∈ b, neigh_gc_removable e = false) :
    (neigh_forced_gc_bucket b).2 = 0 := by
  induction b with
  | nil => rfl
  | cons e rest ih =>
    have he : neigh_gc_removable e = false := h e (List.mem_cons_self e rest)
    simp [neigh_forced_gc_bucket, he]
    exact ih (fun x hx => h x (List.mem_cons_of_mem e hx))

/-- C5: forced GC scans every bucket and removes exactly the entries with
refcount 1 whose state is not PERMANENT, recording the sweep timestamp;
and when creation is attempted with the live entry count at or above
gc_thresh3 and the forced sweep frees nothing, the allocation is refused. -/
theorem neigh_forced_gc_spec (hz now : Int) (tbl : NeighTable) :
    ((neigh_forced_gc now tbl).1.buckets =
        tbl.buckets.map (fun b => b.filter (fun e => ! neigh_gc_removable e)) ∧
      (neigh_forced_gc now tbl).1.last_flush = now ∧
      ∀ e : Neighbour, neigh_gc_removable e = true ↔
        (e.refcnt = 1 ∧ e.nud_state ≠ NUD_PERMANENT)) ∧
    (tbl.gc_thresh3 ≤ tbl.entries →
      (∀ b ∈ tbl.buckets, ∀ e ∈ b, neigh_gc_removable e = false) →
      (neigh_alloc hz now tbl).1 = Option.none) := by
  refine ⟨⟨?_, ?_, ?_⟩, ?_⟩
  · simp [neigh_forced_gc, List.map_map, Function.comp_def,
      neigh_forced_gc_bucket_fst]
  · simp [neigh_forced_gc]
  · intro e
    simp [neigh_gc_removable]
  · intro h3 hall
    have hrm :
        (((({ tbl with entries := tbl.entries + 1 } :
              NeighTable).buckets.map neigh_forced_gc_bucket).map
            Prod.snd).sum : Nat) = 0 := by
      apply List.sum_eq_zero
      intro x hx
      simp only [List.mem_map] at hx
      obtain ⟨y, ⟨b, hb, rfl⟩, rfl⟩ := hx
      exact neigh_forced_gc_bucket_snd_eq_zero b (hall b hb)
    simp only [List.map_map] at hrm
    simp [neigh_alloc, neigh_forced_gc, h3, hrm]

theorem neigh_forced_gc_spec_witness :
    (neigh_alloc 1000 100 pinned_table).1 = Option.none :=
  (neigh_forced_gc_spec 1000 100 pinned_table).2 (by decide) (by decide)

/-- C8 counterexample: with proxy_qlen = 1 and one frame queued, a new
frame is still appended (the check is strict: qlen > proxy_qlen), so the
queue reaches length 2 > proxy_qlen; and once over the cap it is the NEW
frame that is freed while the oldest queued frame is retained. -/
theorem pneigh_enqueue_cex :
    (pneigh_enqueue small_proxy_parms ⟨[10]⟩ 20).1.proxy_queue = [10, 20] ∧
    ¬ ((pneigh_enqueue small_proxy_parms ⟨[10]⟩ 20).1.proxy_queue.length ≤
        small_proxy_parms.proxy_qlen) ∧
    pneigh_enqueue small_proxy_parms ⟨[10, 20]⟩ 30 = (⟨[10, 20]⟩, true) := by
  decide

/-- C8 (amended): when the proxy queue already holds more than proxy_qlen
frames, the newly arriving frame is the one dropped (the queue is left
unchanged and nothing is surfaced to the caller); otherwise the frame is
appended, so the queue length never exceeds proxy_qlen + 1. -/
theorem pneigh_enqueue_bound (p : NeighParms) (st : ProxyState) (s : Nat)
    (h : st.proxy_queue.length ≤ p.proxy_qlen + 1) :
    ((pneigh_enqueue p st s).1.proxy_queue.length ≤ p.proxy_qlen + 1) ∧
    (p.proxy_qlen < st.proxy_queue.length →
      pneigh_enqueue p st s = (st, true)) := by
  unfold pneigh_enqueue
  by_cases hq : p.proxy_qlen < st.proxy_queue.length
  · simp [hq]
    exact h
  · simp only [if_neg hq]
    refine ⟨?_, fun hq2 => absurd hq2 hq⟩
    simp only [List.length_append, List.length_singleton]
    omega

theorem pneigh_enqueue_bound_witness :
    ((pneigh_enqueue small_proxy_parms ⟨[10, 20]⟩ 30).1.proxy_queue.length ≤
        small_proxy_parms.proxy_qlen + 1) ∧
    pneigh_enqueue small_proxy_parms ⟨[10, 20]⟩ 30 =
      (⟨[10, 20]⟩, true) := by
  have h := pneigh_enqueue_bound small_proxy_parms ⟨[10, 20]⟩ 30 (by decide)
  exact ⟨h.1, h.2 (by decide)⟩

/-- C9 counterexample: on an entry in the initial NUD_NONE state,
update(e, 5, STALE) followed by confirm(e) leaves the entry in NUD_STALE,
not NUD_REACHABLE as the claim states (confirm only sets the timestamp). -/
theorem update_stale_confirm_cex :
    (neigh_confirm 100 (neigh_update 100 6 arp_tbl_parms none_entry
        (Option.some 5) NUD_STALE overrideFlags).neigh).nud_state =
      NUD_STALE ∧
    (neigh_confirm 100 (neigh_update 100 6 arp_tbl_parms none_entry
        (Option.some 5) NUD_STALE overrideFlags).neigh).nud_state ≠
      NUD_REACHABLE ∧
    (neigh_confirm 100 (neigh_update 100 6 arp_tbl_parms none_entry
        (Option.some 5) NUD_STALE overrideFlags).neigh).confirmed = 100 := by
  decide

/-- C9 (amended): for an entry whose state is not CONNECTED
(PERMANENT/NOARP/REACHABLE), update(e, L, STALE, OVERRIDE) followed by
confirm(e) leaves e in state STALE with confirmed = now; confirm never
changes the state of any entry. -/
theorem update_stale_then_confirm (now : Int) (addr_len : Nat)
    (p : NeighParms) (n : Neighbour) (l : Nat)
    (hconn : n.nud_state.isConnected = false) :
    (neigh_confirm now (neigh_update now addr_len p n (Option.some l)
        NUD_STALE overrideFlags).neigh).nud_state = NUD_STALE ∧
    (neigh_confirm now (neigh_update now addr_len p n (Option.some l)
        NUD_STALE overrideFlags).neigh).confirmed = now ∧
    (∀ m : Neighbour, (neigh_confirm now m).nud_state = m.nud_state) := by
  refine ⟨?_, rfl, fun m => rfl⟩
  cases hst : n.nud_state <;>
    by_cases hl : l = n.ha <;>
      by_cases ha0 : addr_len = 0 <;>
        simp_all [neigh_confirm, neigh_update, neigh_update_main,
          neigh_update_out, overrideFlags, NudState.isValid,
          NudState.isConnected, NudState.isInTimer]

theorem update_stale_then_confirm_witness :
    (neigh_confirm 100 (neigh_update 100 6 arp_tbl_parms none_entry
        (Option.some 5) NUD_STALE overrideFlags).neigh).nud_state =
      NUD_STALE ∧
    (neigh_confirm 100 (neigh_update 100 6 arp_tbl_parms none_entry
        (Option.some 5) NUD_STALE overrideFlags).neigh).confirmed = 100 := by
  have h := update_stale_then_confirm 100 6 arp_tbl_parms none_entry 5
    (by decide)
  exact ⟨h.1, h.2.1⟩
